import Mathlib

/-!
# glusterd2: volume store utilities, volume-create command, peer RPC service

A shallow embedding of three Go source files

* `volume/store-utils.go`            (package `volume`)
* `commands/volumes/volume-create.go` (package `volumecommands`)
* `commands/peers/peer-rpc-svc.go`    (package `peercommands`)

Go functions that read or write the global `gdctx.Store` take the store value
as an argument and return the new store.  Go `error` results are `Option GoError`
(`none` is `nil`) or `Except GoError _` for a value/error pair.  Library calls and
declarations that live outside the three files are fields of `Env`.
-/

namespace Glusterd2

/-! ## Basic Go values -/

/-- Go `error` value, identified by its message (`err.Error()`). -/
structure GoError where
  text : String
deriving DecidableEq, Repr, Inhabited

/-- Go `uuid.UUID` is `[]byte`; the `nil` UUID is the empty list. -/
abbrev UUID := List Nat

/-- Brick entry of a volume (`volume.Brickinfo`); declared outside the three files. -/
structure Brickinfo where
  Hostname : String
  Path : String
deriving DecidableEq, Repr, Inhabited

/-- Volume record `volume.Volinfo`, with the fields the three files refer to
(`ID`, `Name`, `Bricks`).  The derived `default` is Go's zero value. -/
structure Volinfo where
  ID : UUID
  Name : String
  Bricks : List Brickinfo
deriving DecidableEq, Repr, Inhabited

/-- Request body `volume.VolCreateRequest`, with the fields the three files refer to. -/
structure VolCreateRequest where
  Name : String
  Bricks : List String
  Force : Bool
deriving DecidableEq, Repr, Inhabited

/-- Trusted credentials `volume.VolAuth`. -/
structure VolAuth where
  Username : String
  Password : String
deriving DecidableEq, Repr, Inhabited

/-- Incoming `*http.Request`, reduced to its body. -/
structure HttpRequest where
  body : String
deriving DecidableEq, Repr, Inhabited

/-! ## The replicated store (etcd client `gdctx.Store`) -/

/-- One key/value pair of a range response (`mvccpb.KeyValue`): `(Key, Value)`. -/
abbrev KV := String × String

/-- State of the replicated key/value store as seen through `gdctx.Store`.
`kvs` are the stored entries, at most one per key; `fault`, when set, is the
error with which every request against the store in this state returns. -/
structure Store where
  kvs : List KV
  nodup : (kvs.map Prod.fst).Nodup
  fault : Option GoError

/-- Range response `clientv3.GetResponse`. -/
structure GetResponse where
  Kvs : List KV
  Count : Nat
deriving DecidableEq, Repr

/-- Byte-wise key test used by `clientv3.WithPrefix()`. -/
def hasPrefix (p key : String) : Bool := p.toList.isPrefixOf key.toList

namespace Store

/-- Store with no entries that serves every request. -/
def empty : Store := ⟨[], List.nodup_nil, none⟩

/-- Range read of a single key: `Store.Get(ctx, key)`. -/
def Get (s : Store) (key : String) : Except GoError GetResponse :=
  match s.fault with
  | some e => .error e
  | none =>
    let kvs := s.kvs.filter (fun kv => kv.1 = key)
    .ok ⟨kvs, kvs.length⟩

/-- Range read of all keys below a prefix: `Store.Get(ctx, p, clientv3.WithPrefix())`. -/
def GetWithPrefix (s : Store) (p : String) : Except GoError GetResponse :=
  match s.fault with
  | some e => .error e
  | none =>
    let kvs := s.kvs.filter (fun kv => hasPrefix p kv.1)
    .ok ⟨kvs, kvs.length⟩

/-- Write of one key: `Store.Put(ctx, key, val)`; an entry already at `key` is replaced. -/
def Put (s : Store) (key val : String) : Option GoError × Store :=
  match s.fault with
  | some e => (some e, s)
  | none =>
    (none, ⟨(s.kvs.filter (fun kv => kv.1 ≠ key)) ++ [(key, val)], by
      rw [List.map_append, List.nodup_append]
      refine ⟨s.nodup.sublist ((List.filter_sublist s.kvs).map Prod.fst), by simp, ?_⟩
      intro a ha hb
      simp only [List.map_cons, List.map_nil, List.mem_singleton] at hb
      subst hb
      simp only [List.mem_map, List.mem_filter] at ha
      obtain ⟨kv, ⟨_, hne⟩, hk⟩ := ha
      simp [hk] at hne, none⟩)

/-- Removal of one key: `Store.Delete(ctx, key)`. -/
def Delete (s : Store) (key : String) : Option GoError × Store :=
  match s.fault with
  | some e => (some e, s)
  | none =>
    (none, ⟨s.kvs.filter (fun kv => kv.1 ≠ key),
      s.nodup.sublist ((List.filter_sublist s.kvs).map Prod.fst), none⟩)

end Store

/-! ## Declarations outside the three files -/

/-- Local filesystem of the node (brick directories, volfiles): the paths present. -/
abbrev FS := List String

/-- Constants, library calls and helpers that the three files use and do not define. -/
structure Env where
  /-- Constant `store.GlusterPrefix`. -/
  GlusterPrefix : String
  /-- Library `json.Marshal` at type `*Volinfo`. -/
  jsonMarshal : Volinfo → Except GoError String
  /-- Library `json.Unmarshal` into a fresh `Volinfo`. -/
  jsonUnmarshal : String → Except GoError Volinfo
  /-- Helper `utils.GetJSONFromRequest(r, msg)`: decodes the body into `msg`. -/
  GetJSONFromRequest : HttpRequest → VolCreateRequest → Except GoError VolCreateRequest
  /-- Error constants of package `gderrors`. -/
  ErrJSONParsingFailed : GoError
  ErrEmptyVolName : GoError
  ErrEmptyBrickList : GoError
  ErrVolExists : GoError
  /-- Helper `utils.ParseHostAndBrickPath`: `(host, path)` of a brick string. -/
  ParseHostAndBrickPath : String → Except GoError (String × String)
  /-- Library `uuid.Parse`: the `nil` UUID (empty list) when the text is no UUID. -/
  uuidParse : String → UUID
  /-- Hook `peer.GetPeerIDByAddrF`, which looks the address up among the stored peers. -/
  GetPeerIDByAddrF : Store → String → Except GoError UUID
  /-- Constructor `volume.NewVolumeEntry`. -/
  NewVolumeEntry : VolCreateRequest → Except GoError Volinfo
  /-- Hook `volume.NewBrickEntriesFunc`. -/
  NewBrickEntriesFunc : Store → List String → String → Except GoError (List Brickinfo)
  /-- Hook `volume.ValidateBrickEntriesFunc(bricks, volID, force)`; works on brick paths. -/
  ValidateBrickEntriesFunc : List Brickinfo → UUID → Bool → FS → Option GoError × FS
  /-- Hook `volgen.GenerateVolfileFunc(vol, volAuth)`; writes volfiles. -/
  GenerateVolfileFunc : Volinfo → VolAuth → FS → Option GoError × FS
  /-- Helper `volume.RemoveBrickPaths(bricks)`; removes brick paths from the filesystem. -/
  RemoveBrickPaths : List Brickinfo → FS → Option GoError × FS

/-! ## Package `volume`: store-utils.go -/

/-- Constant `volumePrefix = store.GlusterPrefix + "volumes/"`. -/
def volumePrefix (env : Env) : String := env.GlusterPrefix ++ "volumes/"

/-- Go `AddOrUpdateVolume`: marshal the volume and put it under `volumePrefix+v.Name`. -/
def AddOrUpdateVolume (env : Env) (s : Store) (v : Volinfo) : Option GoError × Store :=
  match env.jsonMarshal v with
  | .error e => (some e, s)
  | .ok json =>
    match s.Put (volumePrefix env ++ v.Name) json with
    | (some e, s1) => (some e, s1)
    | (none, s1) => (none, s1)

/-- Go `GetVolume`: read the single key `volumePrefix+name` and decode its value.
`resp.Kvs[0]` on an empty `Kvs` is Go's index panic, rendered as an error. -/
def GetVolume (env : Env) (s : Store) (name : String) : Except GoError Volinfo :=
  match s.Get (volumePrefix env ++ name) with
  | .error e => .error e
  | .ok resp =>
    if resp.Count ≠ 1 then .error ⟨"volume not found"⟩
    else
      match resp.Kvs with
      | [] => .error ⟨"index out of range"⟩
      | kv :: _ =>
        match env.jsonUnmarshal kv.2 with
        | .error e => .error e
        | .ok v => .ok v

/-- Go `DeleteVolume`. -/
def DeleteVolume (env : Env) (s : Store) (name : String) : Option GoError × Store :=
  s.Delete (volumePrefix env ++ name)

/-- Body of the `for _, kv := range resp.Kvs` loop of `GetVolumesList`; `volumes` is
the Go map, kept as an association list with `volumes[vol.Name] = vol.ID` overwriting. -/
def GetVolumesList.loop (env : Env) : List KV → List (String × UUID) → List (String × UUID)
  | [], volumes => volumes
  | kv :: rest, volumes =>
    match env.jsonUnmarshal kv.2 with
    | .error _ => GetVolumesList.loop env rest volumes
    | .ok vol =>
      GetVolumesList.loop env rest
        ((volumes.filter (fun p => p.1 ≠ vol.Name)) ++ [(vol.Name, vol.ID)])

/-- Go `GetVolumesList`: map of volume names to their UUIDs. -/
def GetVolumesList (env : Env) (s : Store) : Except GoError (List (String × UUID)) :=
  match s.GetWithPrefix (volumePrefix env) with
  | .error e => .error e
  | .ok resp => .ok (GetVolumesList.loop env resp.Kvs [])

/-- Body of the `for i, kv := range resp.Kvs` loop of `GetVolumes`: on a decoding
error the iteration is skipped (`continue`), otherwise `volumes[i] = vol`. -/
def GetVolumes.loop (env : Env) : Nat → List KV → List Volinfo → List Volinfo
  | _, [], volumes => volumes
  | i, kv :: rest, volumes =>
    match env.jsonUnmarshal kv.2 with
    | .error _ => GetVolumes.loop env (i + 1) rest volumes
    | .ok vol => GetVolumes.loop env (i + 1) rest (volumes.set i vol)

/-- Go `GetVolumes`: `volumes := make([]Volinfo, len(resp.Kvs))` followed by the loop. -/
def GetVolumes (env : Env) (s : Store) : Except GoError (List Volinfo) :=
  match s.GetWithPrefix (volumePrefix env) with
  | .error e => .error e
  | .ok resp =>
    .ok (GetVolumes.loop env 0 resp.Kvs (List.replicate resp.Kvs.length default))

/-- Go `Exists`: `false` on a read error, otherwise `resp.Count == 1`. -/
def Exists (env : Env) (s : Store) (name : String) : Bool :=
  match s.Get (volumePrefix env ++ name) with
  | .error _ => false
  | .ok resp => resp.Count == 1

/-- Package variable `ExistsFunc = Exists`. -/
def ExistsFunc : Env → Store → String → Bool := Exists

/-- Package variable `AddOrUpdateVolumeFunc = AddOrUpdateVolume`. -/
def AddOrUpdateVolumeFunc : Env → Store → Volinfo → Option GoError × Store := AddOrUpdateVolume

/-! ## Package `peercommands`: peer-rpc-svc.go -/

/-- Request `PeerAddReq` of the generated RPC code; `Name` is the field read here. -/
structure PeerAddReq where
  Name : String
deriving DecidableEq, Repr, Inhabited

/-- Reply `PeerAddResp`. -/
structure PeerAddResp where
  OpRet : Int
  OpError : String
  UUID : String
  PeerName : String
  EtcdPeerAddress : String
deriving DecidableEq, Repr

/-- Reply `PeerGenericResp`. -/
structure PeerGenericResp where
  OpRet : Int
  OpError : String
deriving DecidableEq, Repr

/-- Request `EtcdConfigReq`, with the fields read by `ExportAndStoreETCDConfig`. -/
structure EtcdConfigReq where
  DeletePeer : Bool
  InitialCluster : String
  ClusterState : String
  EtcdName : String
deriving DecidableEq, Repr, Inhabited

/-- Process-wide values read by the peer service: `gdctx.MaxOpVersion`,
`gdctx.MyUUID.String()`, `gdctx.HostName` and `config.GetString("etcdpeeraddress")`. -/
structure GdCtx where
  MaxOpVersion : Int
  MyUUID : String
  HostName : String
  etcdpeeraddress : String

/-- Go `PeerService.ValidateAdd`: reply and returned Go error. -/
def ValidateAdd (g : GdCtx) (env : Env) (s : Store) (args : PeerAddReq) :
    PeerAddResp × Option GoError :=
  let opRet0 : Int := 0
  let opError0 : String := ""
  let uuid := g.MyUUID
  let (opRet1, opError1) :=
    if g.MaxOpVersion < 40000 then
      ((-1 : Int), "GlusterD instance running on " ++ args.Name ++ " is not compatible")
    else (opRet0, opError0)
  -- `volumes, _ := volume.GetVolumes()`: on an error `volumes` is the nil slice
  let volumes : List Volinfo :=
    match GetVolumes env s with
    | .ok vs => vs
    | .error _ => []
  let (opRet2, opError2) :=
    if volumes.length ≠ 0 then
      ((-1 : Int), "Peer " ++ args.Name ++ " already has existing volumes")
    else (opRet1, opError1)
  (⟨opRet2, opError2, uuid, g.HostName, g.etcdpeeraddress⟩, none)

/-- Go `PeerService.ValidateDelete`. -/
def ValidateDelete : PeerGenericResp × Option GoError :=
  (⟨0, ""⟩, none)

/-- Embedded etcd configuration handled by package `etcdmgmt`, with the fields
assigned by `ExportAndStoreETCDConfig`. -/
structure EtcdConfig where
  Name : String
  Dir : String
  InitialCluster : String
  ClusterState : String
deriving DecidableEq, Repr, Inhabited

/-- Calls that `ExportAndStoreETCDConfig` makes to its collaborators, with arguments. -/
inductive EtcdCall where
  | StoreClose
  | GetEtcdConfig (readConf : Bool)
  | DestroyEmbeddedEtcd (deleteData : Bool)
  | StartEmbeddedEtcd (cfg : EtcdConfig)
  | InitStore
  | AddSelfDetails
  | StoreEtcdConfig (cfg : EtcdConfig)
deriving DecidableEq, Repr

/-- Outcomes of the fallible functions of package `etcdmgmt` (defined outside the
three files), as functions of their arguments. -/
structure EtcdMgmt where
  GetEtcdConfig : Bool → Except GoError EtcdConfig
  DestroyEmbeddedEtcd : Bool → Option GoError
  StartEmbeddedEtcd : EtcdConfig → Option GoError
  StoreEtcdConfig : EtcdConfig → Option GoError

/-- Result of an RPC handler run: reply, returned Go error, and the collaborator
calls made, in order. -/
structure EtcdRun where
  reply : PeerGenericResp
  err : Option GoError
  calls : List EtcdCall
deriving DecidableEq, Repr

/-- Label `Out:` of `ExportAndStoreETCDConfig`: build the reply and return. -/
def ExportAndStoreETCDConfig.Out (opRet : Int) (opError : String) (calls : List EtcdCall) :
    EtcdRun :=
  ⟨⟨opRet, opError⟩, none, calls⟩

/-- Go `PeerService.ExportAndStoreETCDConfig`. -/
def ExportAndStoreETCDConfig (m : EtcdMgmt) (c : EtcdConfigReq) : EtcdRun :=
  -- `gdctx.Store.Close()`, then `etcdmgmt.GetEtcdConfig(false)`
  let calls1 := [EtcdCall.StoreClose, EtcdCall.GetEtcdConfig false]
  match m.GetEtcdConfig false with
  | .error _ =>
    ExportAndStoreETCDConfig.Out (-1) "Could not fetch etcd configuration." calls1
  | .ok fetched =>
    let newEtcdConfig : EtcdConfig :=
      if !c.DeletePeer then
        { fetched with
          InitialCluster := c.InitialCluster
          ClusterState := c.ClusterState
          Name := c.EtcdName
          Dir := c.EtcdName ++ ".etcd" }
      else fetched
    let calls2 := calls1 ++ [EtcdCall.DestroyEmbeddedEtcd true]
    match m.DestroyEmbeddedEtcd true with
    | some _ =>
      ExportAndStoreETCDConfig.Out (-1) "Error stopping embedded etcd server." calls2
    | none =>
      let calls3 := calls2 ++ [EtcdCall.StartEmbeddedEtcd newEtcdConfig]
      match m.StartEmbeddedEtcd newEtcdConfig with
      | some _ =>
        ExportAndStoreETCDConfig.Out (-1) "Could not start embedded etcd server." calls3
      | none =>
        let calls4 := calls3 ++ [EtcdCall.InitStore]
        if c.DeletePeer then
          ExportAndStoreETCDConfig.Out 0 "" (calls4 ++ [EtcdCall.AddSelfDetails])
        else
          let calls5 := calls4 ++ [EtcdCall.StoreEtcdConfig newEtcdConfig]
          match m.StoreEtcdConfig newEtcdConfig with
          | some _ =>
            ExportAndStoreETCDConfig.Out (-1) "Error storing etcd configuration." calls5
          | none => ExportAndStoreETCDConfig.Out 0 "" calls5

/-! ## Package `transaction`: what volume-create.go uses of it -/

/-- Values that volume-create.go places in a transaction context. -/
inductive CtxValue where
  | req (r : VolCreateRequest)
  | volinfo (v : Volinfo)
  | volauth (a : VolAuth)
deriving DecidableEq, Repr

/-- Modelled from the spec: the implementation behind the `transaction.TxnCtx`
interface is outside the three files.  "A mapping from string key to arbitrary
serializable value (keys unique, last write wins)". -/
structure TxnCtx where
  data : List (String × CtxValue)
deriving DecidableEq, Repr

namespace TxnCtx

/-- Modelled from the spec: `Set(key, value)` "stores it under key, overwriting any
prior value"; the values of `CtxValue` are all serializable. -/
def Set (c : TxnCtx) (key : String) (value : CtxValue) : Except GoError TxnCtx :=
  .ok ⟨(c.data.filter (fun p => p.1 ≠ key)) ++ [(key, value)]⟩

/-- Modelled from the spec: `Get(key, &dest)` "looks up key ... fails with KeyNotFound
if absent". -/
def Get (c : TxnCtx) (key : String) : Except GoError CtxValue :=
  match c.data.find? (fun p => p.1 = key) with
  | none => .error ⟨"KeyNotFound"⟩
  | some p => .ok p.2

/-- Call `c.Get(key, &vol)` with `vol` a `Volinfo`: "DeserializationError on shape
mismatch". -/
def GetVolinfo (c : TxnCtx) (key : String) : Except GoError Volinfo :=
  match c.Get key with
  | .error e => .error e
  | .ok (.volinfo v) => .ok v
  | .ok _ => .error ⟨"DeserializationError"⟩

/-- Call `c.Get(key, &req)` with `req` a `VolCreateRequest`. -/
def GetReq (c : TxnCtx) (key : String) : Except GoError VolCreateRequest :=
  match c.Get key with
  | .error e => .error e
  | .ok (.req r) => .ok r
  | .ok _ => .error ⟨"DeserializationError"⟩

/-- Call `c.Get(key, &volAuth)` with `volAuth` a `VolAuth`. -/
def GetVolAuth (c : TxnCtx) (key : String) : Except GoError VolAuth :=
  match c.Get key with
  | .error e => .error e
  | .ok (.volauth a) => .ok a
  | .ok _ => .error ⟨"DeserializationError"⟩

end TxnCtx

/-- State a step function acts on: the replicated store and the node's filesystem. -/
structure World where
  store : Store
  fs : FS

/-- Go `transaction.StepFunc`, `func(TxnCtx) error`, with the state made explicit. -/
abbrev StepFunc := TxnCtx → World → Option GoError × World

/-- Literal `transaction.SimpleTxn` built by the handler (`LogFields` holds `reqid`). -/
structure SimpleTxn where
  Nodes : List UUID
  LockKey : String
  Stage : String
  Commit : String
  Store : String
  Rollback : String
  reqid : String
deriving DecidableEq, Repr

/-- Transaction value returned by `NewTxn`, with its context `Ctx`. -/
structure Txn where
  desc : SimpleTxn
  Ctx : TxnCtx
deriving DecidableEq, Repr

/-- Outcome of `txn.Do()`: returned context or error, the state afterwards, and the
names of the step functions that were run. -/
structure DoResult where
  ctx : Except GoError TxnCtx
  world : World
  ran : List String

/-- Transaction engine of package `transaction` (outside the three files). -/
structure TxnEngine where
  NewTxn : SimpleTxn → World → Except GoError Txn × World
  Do : Txn → World → DoResult
  Cleanup : Txn → World → World

/-! ## Package `volumecommands`: volume-create.go -/

/-- Go `unmarshalVolCreateRequest`: the `(int, error)` result and `msg` afterwards. -/
def unmarshalVolCreateRequest (env : Env) (msg : VolCreateRequest) (r : HttpRequest) :
    (Nat × Option GoError) × VolCreateRequest :=
  match env.GetJSONFromRequest r msg with
  | .error _ => ((422, some env.ErrJSONParsingFailed), msg)
  | .ok msg1 =>
    if msg1.Name = "" then ((400, some env.ErrEmptyVolName), msg1)
    else if msg1.Bricks.length ≤ 0 then ((400, some env.ErrEmptyBrickList), msg1)
    else ((0, none), msg1)

/-- Go `createVolinfo`. -/
def createVolinfo (env : Env) (s : Store) (msg : VolCreateRequest) : Except GoError Volinfo :=
  match env.NewVolumeEntry msg with
  | .error err => .error err
  | .ok vol =>
    match env.NewBrickEntriesFunc s msg.Bricks vol.Name with
    | .error err => .error err
    | .ok bricks => .ok { vol with Bricks := bricks }

/-- Go `validateVolumeCreate` (step `vol-create.Stage`). -/
def validateVolumeCreate (env : Env) : StepFunc := fun c w =>
  match c.GetReq "req" with
  | .error err => (some err, w)
  | .ok req =>
    match c.GetVolinfo "volinfo" with
    | .error err => (some err, w)
    | .ok vol =>
      match env.ValidateBrickEntriesFunc vol.Bricks vol.ID req.Force w.fs with
      | (some err, fs1) => (some err, { w with fs := fs1 })
      | (none, fs1) => (none, { w with fs := fs1 })

/-- Go `generateVolfiles` (step `vol-create.Commit`). -/
def generateVolfiles (env : Env) : StepFunc := fun c w =>
  match c.GetVolinfo "volinfo" with
  | .error _ => (some ⟨"generateVolfiles: Failed to get volinfo from context"⟩, w)
  | .ok vol =>
    match c.GetVolAuth "volauth" with
    | .error _ => (some ⟨"generateVolfiles: Failed to get volauth from context"⟩, w)
    | .ok volAuth =>
      match env.GenerateVolfileFunc vol volAuth w.fs with
      | (some e, fs1) => (some e, { w with fs := fs1 })
      | (none, fs1) => (none, { w with fs := fs1 })

/-- Go `storeVolume` (step `vol-create.Store`). -/
def storeVolume (env : Env) : StepFunc := fun c w =>
  match c.GetVolinfo "volinfo" with
  | .error _ => (some ⟨"failed to get volinfo from context"⟩, w)
  | .ok vol =>
    match AddOrUpdateVolumeFunc env w.store vol with
    | (some e, s1) => (some e, { w with store := s1 })
    | (none, s1) => (none, { w with store := s1 })

/-- Go `rollBackVolumeCreate` (step `vol-create.Rollback`): the result of
`RemoveBrickPaths` is discarded (`_ =`). -/
def rollBackVolumeCreate (env : Env) : StepFunc := fun c w =>
  match c.GetVolinfo "volinfo" with
  | .error _ => (some ⟨"failed to get volinfo from context"⟩, w)
  | .ok vol =>
    let fs1 := (env.RemoveBrickPaths vol.Bricks w.fs).2
    (none, { w with fs := fs1 })

/-- Go `registerVolCreateStepFuncs`: the step names and the functions registered
under them. -/
def registerVolCreateStepFuncs (env : Env) : List (String × StepFunc) :=
  [ ("vol-create.Stage", validateVolumeCreate env),
    ("vol-create.Commit", generateVolfiles env),
    ("vol-create.Store", storeVolume env),
    ("vol-create.Rollback", rollBackVolumeCreate env) ]

/-- Body of `for _, b := range req.Bricks` in `nodesForVolCreate`, with the slice
`nodes` built so far. -/
def nodesForVolCreate.loop (env : Env) (s : Store) :
    List String → List UUID → Except GoError (List UUID)
  | [], nodes => .ok nodes
  | b :: rest, nodes =>
    match env.ParseHostAndBrickPath b with
    | .error err => .error err
    | .ok (host, _) =>
      let id := env.uuidParse host
      if id = [] then
        -- Host specified is IP or IP:port
        match env.GetPeerIDByAddrF s host with
        | .error err => .error err
        | .ok id1 => nodesForVolCreate.loop env s rest (nodes ++ [id1])
      else nodesForVolCreate.loop env s rest (nodes ++ [id])

/-- Go `nodesForVolCreate`: the list of nodes which volume create touches. -/
def nodesForVolCreate (env : Env) (s : Store) (req : VolCreateRequest) :
    Except GoError (List UUID) :=
  nodesForVolCreate.loop env s req.Bricks []

/-- Observable actions of `volumeCreateHandler`, in order. -/
inductive HandlerEvent where
  | SendHTTPError (status : Nat) (msg : String)
  | SendHTTPResponse (status : Nat) (vol : Volinfo)
  | NewTxn (t : SimpleTxn)
  | CtxSet (key : String) (value : CtxValue)
  | Do (ran : List String)
  | Cleanup
deriving DecidableEq, Repr

/-- Values drawn from `uuid.NewRandom()` during one run of the handler. -/
structure Fresh where
  reqid : String
  username : String
  password : String

/-- Deferred `txn.Cleanup()` of `volumeCreateHandler`: runs at every return that
follows a successful `NewTxn`. -/
def volumeCreateHandler.deferred (eng : TxnEngine) (txn : Txn) (events : List HandlerEvent)
    (w : World) : List HandlerEvent × World :=
  (events ++ [HandlerEvent.Cleanup], eng.Cleanup txn w)

/-- Go `volumeCreateHandler`: the actions taken and the state afterwards. -/
def volumeCreateHandler (env : Env) (eng : TxnEngine) (rnd : Fresh) (w : World)
    (r : HttpRequest) : List HandlerEvent × World :=
  match unmarshalVolCreateRequest env default r with
  | ((httpStatus, some e), _) => ([.SendHTTPError httpStatus e.text], w)
  | ((_, none), req) =>
    if ExistsFunc env w.store req.Name then
      ([.SendHTTPError 500 env.ErrVolExists.text], w)
    else
      match nodesForVolCreate env w.store req with
      | .error e => ([.SendHTTPError 500 e.text], w)
      | .ok nodes =>
        let stxn : SimpleTxn :=
          { Nodes := nodes
            LockKey := req.Name
            Stage := "vol-create.Stage"
            Commit := "vol-create.Commit"
            Store := "vol-create.Store"
            Rollback := "vol-create.Rollback"
            reqid := rnd.reqid }
        match eng.NewTxn stxn w with
        | (.error e, w1) => ([.NewTxn stxn, .SendHTTPError 500 e.text], w1)
        | (.ok txn, w1) =>
          let ev1 : List HandlerEvent := [.NewTxn stxn, .CtxSet "req" (.req req)]
          match txn.Ctx.Set "req" (.req req) with
          | .error e =>
            volumeCreateHandler.deferred eng txn (ev1 ++ [.SendHTTPError 500 e.text]) w1
          | .ok c1 =>
            let txn1 : Txn := { txn with Ctx := c1 }
            match createVolinfo env w1.store req with
            | .error e =>
              volumeCreateHandler.deferred eng txn1 (ev1 ++ [.SendHTTPError 500 e.text]) w1
            | .ok vol =>
              let ev2 := ev1 ++ [HandlerEvent.CtxSet "volinfo" (.volinfo vol)]
              match txn1.Ctx.Set "volinfo" (.volinfo vol) with
              | .error e =>
                volumeCreateHandler.deferred eng txn1 (ev2 ++ [.SendHTTPError 500 e.text]) w1
              | .ok c2 =>
                let txn2 : Txn := { txn1 with Ctx := c2 }
                let volAuth : VolAuth := { Username := rnd.username, Password := rnd.password }
                let ev3 := ev2 ++ [HandlerEvent.CtxSet "volauth" (.volauth volAuth)]
                match txn2.Ctx.Set "volauth" (.volauth volAuth) with
                | .error e =>
                  volumeCreateHandler.deferred eng txn2 (ev3 ++ [.SendHTTPError 500 e.text]) w1
                | .ok c3 =>
                  let txn3 : Txn := { txn2 with Ctx := c3 }
                  let res := eng.Do txn3 w1
                  let ev4 := ev3 ++ [HandlerEvent.Do res.ran]
                  match res.ctx with
                  | .error e =>
                    volumeCreateHandler.deferred eng txn3 (ev4 ++ [.SendHTTPError 500 e.text])
                      res.world
                  | .ok c =>
                    match c.GetVolinfo "volinfo" with
                    | .ok vol1 =>
                      volumeCreateHandler.deferred eng txn3
                        (ev4 ++ [.SendHTTPResponse 201 vol1]) res.world
                    | .error _ =>
                      volumeCreateHandler.deferred eng txn3
                        (ev4 ++ [.SendHTTPError 500 "failed to get volinfo"]) res.world

/-! ## Vocabulary for stating the properties -/

/-- Whether a recorded call failed, under the outcomes `m`. -/
def EtcdCall.failed (m : EtcdMgmt) : EtcdCall → Bool
  | .StoreClose => false
  | .GetEtcdConfig readConf =>
    match m.GetEtcdConfig readConf with
    | .error _ => true
    | .ok _ => false
  | .DestroyEmbeddedEtcd deleteData => (m.DestroyEmbeddedEtcd deleteData).isSome
  | .StartEmbeddedEtcd cfg => (m.StartEmbeddedEtcd cfg).isSome
  | .InitStore => false
  | .AddSelfDetails => false
  | .StoreEtcdConfig cfg => (m.StoreEtcdConfig cfg).isSome

/-- Message that `ExportAndStoreETCDConfig` attaches to a failure of each fallible call. -/
def EtcdCall.message : EtcdCall → String
  | .GetEtcdConfig _ => "Could not fetch etcd configuration."
  | .DestroyEmbeddedEtcd _ => "Error stopping embedded etcd server."
  | .StartEmbeddedEtcd _ => "Could not start embedded etcd server."
  | .StoreEtcdConfig _ => "Error storing etcd configuration."
  | _ => ""

/-- Sub-operations of `ExportAndStoreETCDConfig`, without their arguments. -/
inductive EtcdStep where
  | close
  | getConfig
  | destroy
  | start
  | initStore
  | addSelf
  | storeConfig
deriving DecidableEq, Repr

/-- Sub-operation that a recorded call belongs to. -/
def EtcdCall.step : EtcdCall → EtcdStep
  | .StoreClose => .close
  | .GetEtcdConfig _ => .getConfig
  | .DestroyEmbeddedEtcd _ => .destroy
  | .StartEmbeddedEtcd _ => .start
  | .InitStore => .initStore
  | .AddSelfDetails => .addSelf
  | .StoreEtcdConfig _ => .storeConfig

/-- Execution order of the sub-operations for a request, as the statements of
`ExportAndStoreETCDConfig` follow one another. -/
def executionOrder (c : EtcdConfigReq) : List EtcdStep :=
  [.close, .getConfig, .destroy, .start, .initStore,
    if c.DeletePeer then .addSelf else .storeConfig]

/-- Node that one brick string resolves to: the parsed UUID of its host part, or the
peer looked up by address when the host part is no UUID. -/
def brickNode (env : Env) (s : Store) (b : String) : Except GoError UUID :=
  match env.ParseHostAndBrickPath b with
  | .error err => .error err
  | .ok (host, _) =>
    if env.uuidParse host = [] then env.GetPeerIDByAddrF s host
    else .ok (env.uuidParse host)

/-! ## A concrete environment

A small cluster used to evaluate the functions on concrete inputs: one peer at
`10.0.0.1`, one volume `vol1`.  The library functions are given on the strings
that occur in the examples, where they agree with the Go libraries. -/

/-- Identifier of the peer at address `10.0.0.1`. -/
def demoPeerID : UUID := [107, 167, 184, 16, 157, 173, 17, 209, 128, 180, 0, 192, 79, 212, 48, 200]

/-- Canonical text of `demoPeerID`. -/
def demoPeerText : String := "6ba7b810-9dad-11d1-80b4-00c04fd430c8"

/-- Volume `vol1` with one brick on the peer at `10.0.0.1`. -/
def demoVol : Volinfo :=
  { ID := [1, 2, 3, 4, 5, 6, 7, 8, 9, 10, 11, 12, 13, 14, 15, 16]
    Name := "vol1"
    Bricks := [⟨"10.0.0.1", "/bricks/b1"⟩] }

/-- JSON text standing for `demoVol` in the store. -/
def demoVolJSON : String :=
  "\x7b\"ID\":\"01020304-0506-0708-090a-0b0c0d0e0f10\",\"Name\":\"vol1\"," ++
  "\"Bricks\":[\x7b\"Hostname\":\"10.0.0.1\",\"Path\":\"/bricks/b1\"\x7d]\x7d"

/-- Split of a brick string at its last colon, as the formats `<peer-uuid>:<brick-path>`,
`<ip>:<port>:<brick-path>` and `<ip>:<brick-path>` named in `nodesForVolCreate` require. -/
def splitLastColon (b : String) : Except GoError (String × String) :=
  match b.toList.reverse.span (fun ch => ch != ':') with
  | (_, []) => .error ⟨"invalid brick path"⟩
  | (revPath, _ :: revHost) => .ok (String.mk revHost.reverse, String.mk revPath.reverse)

/-- Request of the examples: volume `vol1` with two bricks, both on the peer `10.0.0.1`. -/
def demoReq : VolCreateRequest :=
  { Name := "vol1", Bricks := ["10.0.0.1:/bricks/b1", "10.0.0.1:/bricks/b2"], Force := false }

/-- The concrete environment. -/
def demoEnv : Env where
  GlusterPrefix := "gluster/"
  jsonMarshal := fun v =>
    if v = demoVol then .ok demoVolJSON else .error ⟨"json: unsupported value"⟩
  jsonUnmarshal := fun j =>
    if j = demoVolJSON then .ok demoVol else .error ⟨"invalid character"⟩
  GetJSONFromRequest := fun r _ =>
    if r.body = "create vol1" then .ok demoReq else .error ⟨"unexpected end of JSON input"⟩
  ErrJSONParsingFailed := ⟨"unable to parse the request"⟩
  ErrEmptyVolName := ⟨"volume name is empty"⟩
  ErrEmptyBrickList := ⟨"brick list is empty"⟩
  ErrVolExists := ⟨"volume already exists"⟩
  ParseHostAndBrickPath := splitLastColon
  uuidParse := fun t => if t = demoPeerText then demoPeerID else []
  GetPeerIDByAddrF := fun _ addr =>
    if addr = "10.0.0.1" then .ok demoPeerID else .error ⟨"peer not found"⟩
  NewVolumeEntry := fun r => .ok { ID := demoVol.ID, Name := r.Name, Bricks := [] }
  NewBrickEntriesFunc := fun _ bricks _ =>
    bricks.mapM fun b =>
      match splitLastColon b with
      | .error e => .error e
      | .ok (h, q) => .ok ⟨h, q⟩
  ValidateBrickEntriesFunc := fun _ _ _ fs => (none, fs)
  GenerateVolfileFunc := fun v _ fs => (none, fs ++ ["/var/lib/glusterd/vols/" ++ v.Name])
  RemoveBrickPaths := fun bricks fs =>
    (none, fs.filter fun q => !(bricks.map Brickinfo.Path).contains q)

/-- Serving store that already holds `vol1`. -/
def demoStore : Store := (Store.empty.Put "gluster/volumes/vol1" demoVolJSON).2

/-- Serving store with `vol1` and a second entry under the volume prefix whose value
is not Volinfo JSON. -/
def demoStoreBad : Store := (demoStore.Put "gluster/volumes/vol2" "not json").2

/-- Transaction context holding `demoVol` under `"volinfo"`. -/
def demoCtx : TxnCtx := ⟨[("volinfo", .volinfo demoVol)]⟩

/-- Process-wide values of a node at the current op-version. -/
def demoGdCtx : GdCtx :=
  { MaxOpVersion := 40000, MyUUID := demoPeerText, HostName := "node1",
    etcdpeeraddress := "http://10.0.0.1:2380" }

/-- Outcomes in which every `etcdmgmt` call succeeds. -/
def demoEtcd : EtcdMgmt where
  GetEtcdConfig := fun _ => .ok ⟨"default", "default.etcd", "default=http://10.0.0.1:2380", "new"⟩
  DestroyEmbeddedEtcd := fun _ => none
  StartEmbeddedEtcd := fun _ => none
  StoreEtcdConfig := fun _ => none

/-- Transaction engine of the examples: runs the three forward steps on the local node. -/
def demoEngine : TxnEngine where
  NewTxn := fun t w => (.ok ⟨t, ⟨[]⟩⟩, w)
  Do := fun t w => ⟨.ok t.Ctx, w, [t.desc.Stage, t.desc.Commit, t.desc.Store]⟩
  Cleanup := fun _ w => w

end Glusterd2

/-! ## Lemmas on the store and on `GetVolumes` -/

namespace Glusterd2

theorem GetVolumes.loop_length (env : Env) (kvs : List KV) :
    ∀ (i : Nat) (volumes : List Volinfo),
      (GetVolumes.loop env i kvs volumes).length = volumes.length := by
  induction kvs with
  | nil => intro i volumes; rfl
  | cons kv rest ih =>
    intro i volumes
    unfold GetVolumes.loop
    cases env.jsonUnmarshal kv.2 with
    | error e => exact ih _ _
    | ok vol => simp [ih]

theorem GetVolumes_serving (env : Env) (s : Store) (h : s.fault = none) :
    GetVolumes env s = .ok (GetVolumes.loop env 0
      (s.kvs.filter (fun kv => hasPrefix (volumePrefix env) kv.1))
      (List.replicate (s.kvs.filter (fun kv => hasPrefix (volumePrefix env) kv.1)).length
        default)) := by
  simp only [GetVolumes, Store.GetWithPrefix, h]

theorem sprintf_ne_empty (a b c : String) (hc : c.length ≠ 0) : a ++ b ++ c ≠ "" := by
  intro h
  have h1 := congrArg String.length h
  simp at h1
  exact hc h1.2

/-- Keys are unique, so a key that is present matches exactly one entry. -/
theorem filter_key_length_one (l : List KV) (hl : (l.map Prod.fst).Nodup) (key val : String)
    (hmem : (key, val) ∈ l) : (l.filter (fun kv => kv.1 = key)).length = 1 := by
  induction l with
  | nil => simp at hmem
  | cons a rest ih =>
    simp only [List.map_cons, List.nodup_cons] at hl
    rcases List.mem_cons.mp hmem with h | h
    · subst h
      have hnone : rest.filter (fun kv => decide (kv.1 = key)) = [] := by
        rw [List.filter_eq_nil_iff]
        intro kv hkv hk
        simp only [decide_eq_true_eq] at hk
        exact hl.1 (List.mem_map.mpr ⟨kv, hkv, hk⟩)
      simp [List.filter_cons, hnone]
    · have hne : a.1 ≠ key := by
        intro hk
        exact hl.1 (List.mem_map.mpr ⟨(key, val), h, hk.symm⟩)
      simp [List.filter_cons, hne, ih hl.2 h]

theorem filter_put_same (l : List KV) (key val : String) :
    ((l.filter (fun kv => kv.1 ≠ key)) ++ [(key, val)]).filter (fun kv => kv.1 = key)
      = [(key, val)] := by
  rw [List.filter_append, List.filter_filter]
  have h : l.filter (fun a => decide (a.1 = key) && decide (a.1 ≠ key)) = [] := by
    rw [List.filter_eq_nil_iff]
    intro kv _
    simp
  simp [h]

theorem filter_put_other (l : List KV) (key val k : String) (hk : k ≠ key) :
    ((l.filter (fun kv => kv.1 ≠ key)) ++ [(key, val)]).filter (fun kv => kv.1 = k)
      = l.filter (fun kv => kv.1 = k) := by
  rw [List.filter_append, List.filter_filter]
  have h1 : [(key, val)].filter (fun kv => decide (kv.1 = k)) = [] := by
    simp [List.filter_cons, Ne.symm hk]
  rw [h1, List.append_nil]
  apply List.filter_congr
  intro kv _
  by_cases hkv : kv.1 = k
  · simp [hkv, hk]
  · simp [hkv]

/-! ## Peer service: `ValidateAdd` -/

/-- C1: `ValidateAdd` always returns a nil Go error, and on every store state whose
prefix read succeeds it rejects exactly on a version mismatch or existing volumes: the
reply has `OpRet = -1` if and only if `MaxOpVersion < 40000` or the store holds at least
one entry under the volume prefix, `OpError` is then non-empty, and otherwise
`OpRet = 0` with an empty `OpError`. -/
theorem ValidateAdd_rejects_iff (g : GdCtx) (env : Env) (s : Store) (args : PeerAddReq) :
    (ValidateAdd g env s args).2 = none ∧
    (s.fault = none →
      (((ValidateAdd g env s args).1.OpRet = -1 ∧ (ValidateAdd g env s args).1.OpError ≠ "") ↔
        (g.MaxOpVersion < 40000 ∨
          ∃ kv ∈ s.kvs, hasPrefix (volumePrefix env) kv.1 = true)) ∧
      (¬ (g.MaxOpVersion < 40000 ∨
          ∃ kv ∈ s.kvs, hasPrefix (volumePrefix env) kv.1 = true) →
        (ValidateAdd g env s args).1.OpRet = 0 ∧ (ValidateAdd g env s args).1.OpError = "")) := by
  refine ⟨rfl, fun h => ?_⟩
  have hv := GetVolumes_serving env s h
  have hlen := GetVolumes.loop_length env
    (s.kvs.filter (fun kv => hasPrefix (volumePrefix env) kv.1)) 0
    (List.replicate (s.kvs.filter (fun kv => hasPrefix (volumePrefix env) kv.1)).length default)
  rw [List.length_replicate] at hlen
  have hex : (∃ kv ∈ s.kvs, hasPrefix (volumePrefix env) kv.1 = true) ↔
      (s.kvs.filter (fun kv => hasPrefix (volumePrefix env) kv.1)).length ≠ 0 := by
    rw [Ne, List.length_eq_zero, List.filter_eq_nil_iff]
    push_neg
    rfl
  have e1 : "GlusterD instance running on " ++ args.Name ++ " is not compatible" ≠ "" :=
    sprintf_ne_empty _ _ _ (by decide)
  have e2 : "Peer " ++ args.Name ++ " already has existing volumes" ≠ "" :=
    sprintf_ne_empty _ _ _ (by decide)
  rw [hex]
  simp only [ValidateAdd, hv, hlen]
  by_cases hver : g.MaxOpVersion < 40000 <;>
    by_cases hvol : (s.kvs.filter (fun kv => hasPrefix (volumePrefix env) kv.1)).length = 0 <;>
    simp [hver, hvol, e1, e2]

/-- C1, evaluated: a node at op-version 40000 whose store already holds `vol1` rejects
the request, and the same node with an empty store accepts it. -/
theorem ValidateAdd_rejects_iff_witness :
    demoStore.fault = none ∧
    (ValidateAdd demoGdCtx demoEnv demoStore ⟨"node2"⟩).1.OpRet = -1 ∧
    (ValidateAdd demoGdCtx demoEnv Store.empty ⟨"node2"⟩).1.OpRet = 0 ∧
    (ValidateAdd demoGdCtx demoEnv demoStore ⟨"node2"⟩).2 = none :=
  ⟨rfl, by decide, by decide, (ValidateAdd_rejects_iff demoGdCtx demoEnv demoStore ⟨"node2"⟩).1⟩

/-! ## Store round trip -/

/-- C4: store round trip.  For every store state and every `Volinfo` `v` whose JSON
encoding decodes back to `v`, if `AddOrUpdateVolume v` succeeds then `GetVolume v.Name`
on the resulting store succeeds and returns `v`; the resulting store holds exactly one
entry at key `volumePrefix + v.Name` (whether or not one existed before), and a read of
any other key returns what it returned before. -/
theorem AddOrUpdateVolume_GetVolume_roundtrip (env : Env) (s : Store) (v : Volinfo)
    (hrt : ∀ j, env.jsonMarshal v = .ok j → env.jsonUnmarshal j = .ok v)
    (hput : (AddOrUpdateVolume env s v).1 = none) :
    GetVolume env (AddOrUpdateVolume env s v).2 v.Name = .ok v ∧
    (∃ val, (AddOrUpdateVolume env s v).2.kvs.filter
        (fun kv => kv.1 = volumePrefix env ++ v.Name) = [(volumePrefix env ++ v.Name, val)]) ∧
    (∀ key, key ≠ volumePrefix env ++ v.Name →
      (AddOrUpdateVolume env s v).2.Get key = s.Get key) := by
  cases hm : env.jsonMarshal v with
  | error e => simp [AddOrUpdateVolume, hm] at hput
  | ok j =>
    cases hf : s.fault with
    | some e => simp [AddOrUpdateVolume, hm, Store.Put, hf] at hput
    | none =>
      have hs : (AddOrUpdateVolume env s v).2.kvs =
          (s.kvs.filter (fun kv => kv.1 ≠ volumePrefix env ++ v.Name)) ++
            [(volumePrefix env ++ v.Name, j)] := by
        simp [AddOrUpdateVolume, hm, Store.Put, hf]
      have hfault : (AddOrUpdateVolume env s v).2.fault = none := by
        simp [AddOrUpdateVolume, hm, Store.Put, hf]
      refine ⟨?_, ⟨j, ?_⟩, ?_⟩
      · simp only [GetVolume, Store.Get, hfault, hs, filter_put_same]
        simp [hrt j hm]
      · rw [hs, filter_put_same]
      · intro key hkey
        simp only [Store.Get, hfault, hf, hs, filter_put_other _ _ _ _ hkey]

/-- C4, evaluated: writing `vol1` over a store that already holds `vol1`. -/
theorem AddOrUpdateVolume_GetVolume_roundtrip_witness :
    GetVolume demoEnv (AddOrUpdateVolume demoEnv demoStore demoVol).2 demoVol.Name
      = .ok demoVol :=
  (AddOrUpdateVolume_GetVolume_roundtrip demoEnv demoStore demoVol
    (by
      intro j hj
      have hj1 : j = demoVolJSON := by
        have h2 : demoEnv.jsonMarshal demoVol = .ok demoVolJSON := rfl
        rw [h2] at hj
        exact (Except.ok.inj hj).symm
      subst hj1
      rfl)
    (by decide)).1

/-! ## `GetVolumes` on an entry that does not decode -/

/-- C7: evaluation of `GetVolumes` on a store whose volume prefix holds `vol1` and one
value that is not Volinfo JSON.  The result has two elements; the second is the zero
`Volinfo`, which is the decoding of no stored entry, while `GetVolumesList` on the same
store leaves the undecodable entry out. -/
theorem GetVolumes_undecodable_entry :
    GetVolumes demoEnv demoStoreBad = .ok [demoVol, default] ∧
    (demoStoreBad.kvs.map fun kv => demoEnv.jsonUnmarshal kv.2)
      = [.ok demoVol, .error ⟨"invalid character"⟩] ∧
    GetVolumesList demoEnv demoStoreBad = .ok [("vol1", demoVol.ID)] :=
  ⟨rfl, rfl, rfl⟩

/-! ## Volume create: request decoding -/

/-- C9: `unmarshalVolCreateRequest` classifies in a fixed order: `(422,
ErrJSONParsingFailed)` when the body fails to parse; otherwise `(400, ErrEmptyVolName)`
when the name is empty, whatever the brick list; otherwise `(400, ErrEmptyBrickList)`
when the brick list is empty; and `(0, nil)` if and only if the body parses, the name
is non-empty and there is at least one brick. -/
theorem unmarshalVolCreateRequest_order (env : Env) (msg : VolCreateRequest)
    (r : HttpRequest) :
    (∀ e, env.GetJSONFromRequest r msg = .error e →
      (unmarshalVolCreateRequest env msg r).1 = (422, some env.ErrJSONParsingFailed)) ∧
    (∀ m, env.GetJSONFromRequest r msg = .ok m → m.Name = "" →
      (unmarshalVolCreateRequest env msg r).1 = (400, some env.ErrEmptyVolName)) ∧
    (∀ m, env.GetJSONFromRequest r msg = .ok m → m.Name ≠ "" → m.Bricks = [] →
      (unmarshalVolCreateRequest env msg r).1 = (400, some env.ErrEmptyBrickList)) ∧
    ((unmarshalVolCreateRequest env msg r).1 = (0, none) ↔
      ∃ m, env.GetJSONFromRequest r msg = .ok m ∧ m.Name ≠ "" ∧ 1 ≤ m.Bricks.length) := by
  refine ⟨?_, ?_, ?_, ?_⟩
  · intro e he
    simp [unmarshalVolCreateRequest, he]
  · intro m hm hn
    simp [unmarshalVolCreateRequest, hm, hn]
  · intro m hm hn hb
    simp [unmarshalVolCreateRequest, hm, hn, hb]
  · cases hm : env.GetJSONFromRequest r msg with
    | error e => simp [unmarshalVolCreateRequest, hm]
    | ok m =>
      by_cases hn : m.Name = ""
      · simp [unmarshalVolCreateRequest, hm, hn]
      · by_cases hb : m.Bricks = []
        · simp [unmarshalVolCreateRequest, hm, hn, hb]
        · have hlen : 1 ≤ m.Bricks.length := List.length_pos.mpr hb
          simp [unmarshalVolCreateRequest, hm, hn, hb]
          omega

/-! ## Peer service: `ExportAndStoreETCDConfig` -/

/-- C2: `ExportAndStoreETCDConfig` reports the first error and attempts nothing
afterwards.  For every request and all outcomes of the fallible sub-operations: the calls
made follow the execution order; every call before the last one succeeded; a failure of
the last call is answered with `OpRet = -1` and that call's message; when no call failed
the whole order was executed; and the reply is `OpRet = 0` with empty `OpError` if and
only if every executed call succeeded.  The Go error is nil. -/
theorem ExportAndStoreETCDConfig_first_error (m : EtcdMgmt) (c : EtcdConfigReq) :
    (ExportAndStoreETCDConfig m c).err = none ∧
    ((ExportAndStoreETCDConfig m c).calls.map EtcdCall.step).isPrefixOf (executionOrder c)
      = true ∧
    (∀ call ∈ (ExportAndStoreETCDConfig m c).calls.dropLast, call.failed m = false) ∧
    (∀ call, (ExportAndStoreETCDConfig m c).calls.getLast? = some call →
      call.failed m = true →
      (ExportAndStoreETCDConfig m c).reply = ⟨-1, call.message⟩) ∧
    ((∀ call ∈ (ExportAndStoreETCDConfig m c).calls, call.failed m = false) →
      (ExportAndStoreETCDConfig m c).calls.map EtcdCall.step = executionOrder c) ∧
    (((ExportAndStoreETCDConfig m c).reply.OpRet = 0 ∧
        (ExportAndStoreETCDConfig m c).reply.OpError = "") ↔
      ∀ call ∈ (ExportAndStoreETCDConfig m c).calls, call.failed m = false) := by
  obtain ⟨dp, ic, cs, en⟩ := c
  cases hg : m.GetEtcdConfig false with
  | error e =>
    simp [ExportAndStoreETCDConfig, ExportAndStoreETCDConfig.Out, hg, EtcdCall.failed,
      EtcdCall.message, EtcdCall.step, executionOrder, List.isPrefixOf]
  | ok cfg =>
    cases hd : m.DestroyEmbeddedEtcd true with
    | some e =>
      simp [ExportAndStoreETCDConfig, ExportAndStoreETCDConfig.Out, hg, hd, EtcdCall.failed,
        EtcdCall.message, EtcdCall.step, executionOrder, List.isPrefixOf]
    | none =>
      cases dp with
      | true =>
        cases hs : m.StartEmbeddedEtcd cfg with
        | some e =>
          simp [ExportAndStoreETCDConfig, ExportAndStoreETCDConfig.Out, hg, hd, hs,
            EtcdCall.failed, EtcdCall.message, EtcdCall.step, executionOrder,
            List.isPrefixOf]
        | none =>
          simp [ExportAndStoreETCDConfig, ExportAndStoreETCDConfig.Out, hg, hd, hs,
            EtcdCall.failed, EtcdCall.message, EtcdCall.step, executionOrder,
            List.isPrefixOf]
      | false =>
        cases hs : m.StartEmbeddedEtcd
            { cfg with InitialCluster := ic, ClusterState := cs, Name := en,
                       Dir := en ++ ".etcd" } with
        | some e =>
          simp [ExportAndStoreETCDConfig, ExportAndStoreETCDConfig.Out, hg, hd, hs,
            EtcdCall.failed, EtcdCall.message, EtcdCall.step, executionOrder,
            List.isPrefixOf]
        | none =>
          cases hc : m.StoreEtcdConfig
              { cfg with InitialCluster := ic, ClusterState := cs, Name := en,
                         Dir := en ++ ".etcd" } with
          | some e =>
            simp [ExportAndStoreETCDConfig, ExportAndStoreETCDConfig.Out, hg, hd, hs, hc,
              EtcdCall.failed, EtcdCall.message, EtcdCall.step, executionOrder,
              List.isPrefixOf]
          | none =>
            simp [ExportAndStoreETCDConfig, ExportAndStoreETCDConfig.Out, hg, hd, hs, hc,
              EtcdCall.failed, EtcdCall.message, EtcdCall.step, executionOrder,
              List.isPrefixOf]

/-- C6: successful peer removal resets to the single-member baseline.  With
`DeletePeer = true` and `GetEtcdConfig`, `DestroyEmbeddedEtcd`, `StartEmbeddedEtcd`
succeeding, the calls are exactly: close the store, fetch the configuration, destroy,
start with the fetched configuration unmodified, `InitStore`, then `AddSelfDetails` once;
`StoreEtcdConfig` is not called and the reply is `OpRet = 0`.  With `DeletePeer = false`
`AddSelfDetails` is never called. -/
theorem ExportAndStoreETCDConfig_removal (m : EtcdMgmt) (c : EtcdConfigReq) :
    (c.DeletePeer = true → ∀ cfg, m.GetEtcdConfig false = .ok cfg →
      m.DestroyEmbeddedEtcd true = none → m.StartEmbeddedEtcd cfg = none →
      ExportAndStoreETCDConfig m c =
        ⟨⟨0, ""⟩, none,
          [.StoreClose, .GetEtcdConfig false, .DestroyEmbeddedEtcd true,
            .StartEmbeddedEtcd cfg, .InitStore, .AddSelfDetails]⟩) ∧
    (c.DeletePeer = false →
      EtcdCall.AddSelfDetails ∉ (ExportAndStoreETCDConfig m c).calls) := by
  obtain ⟨dp, ic, cs, en⟩ := c
  refine ⟨?_, ?_⟩
  · intro hdp cfg hg hd hs
    simp only at hdp
    subst hdp
    simp [ExportAndStoreETCDConfig, ExportAndStoreETCDConfig.Out, hg, hd, hs]
  · intro hdp
    simp only at hdp
    subst hdp
    cases hg : m.GetEtcdConfig false with
    | error e => simp [ExportAndStoreETCDConfig, ExportAndStoreETCDConfig.Out, hg]
    | ok cfg =>
      cases hd : m.DestroyEmbeddedEtcd true with
      | some e => simp [ExportAndStoreETCDConfig, ExportAndStoreETCDConfig.Out, hg, hd]
      | none =>
        cases hs : m.StartEmbeddedEtcd
            { cfg with InitialCluster := ic, ClusterState := cs, Name := en,
                       Dir := en ++ ".etcd" } with
        | some e =>
          simp [ExportAndStoreETCDConfig, ExportAndStoreETCDConfig.Out, hg, hd, hs]
        | none =>
          cases hc : m.StoreEtcdConfig
              { cfg with InitialCluster := ic, ClusterState := cs, Name := en,
                         Dir := en ++ ".etcd" } with
          | some e =>
            simp [ExportAndStoreETCDConfig, ExportAndStoreETCDConfig.Out, hg, hd, hs, hc]
          | none =>
            simp [ExportAndStoreETCDConfig, ExportAndStoreETCDConfig.Out, hg, hd, hs, hc]

/-- C6, evaluated: a removal request against outcomes that all succeed; the request
fields `InitialCluster`, `ClusterState`, `EtcdName` do not reach the started
configuration. -/
theorem ExportAndStoreETCDConfig_removal_witness :
    ExportAndStoreETCDConfig demoEtcd ⟨true, "other=http://10.0.0.9:2380", "existing", "other"⟩ =
      ⟨⟨0, ""⟩, none,
        [.StoreClose, .GetEtcdConfig false, .DestroyEmbeddedEtcd true,
          .StartEmbeddedEtcd
            ⟨"default", "default.etcd", "default=http://10.0.0.1:2380", "new"⟩,
          .InitStore, .AddSelfDetails]⟩ :=
  (ExportAndStoreETCDConfig_removal demoEtcd
    ⟨true, "other=http://10.0.0.9:2380", "existing", "other"⟩).1 rfl _ rfl rfl rfl

/-! ## Volume create: store and rollback steps -/

/-- C3, as stated, fails: on an empty serving store, with `vol1` in the context under
`"volinfo"`, `storeVolume` succeeds, `rollBackVolumeCreate` then succeeds and removes the
brick path, and `volume.Exists("vol1")` is still true on the resulting store. -/
theorem rollBackVolumeCreate_keeps_entry :
    demoCtx.GetVolinfo "volinfo" = .ok demoVol ∧
    (storeVolume demoEnv demoCtx ⟨Store.empty, ["/bricks/b1"]⟩).1 = none ∧
    (rollBackVolumeCreate demoEnv demoCtx
      (storeVolume demoEnv demoCtx ⟨Store.empty, ["/bricks/b1"]⟩).2).1 = none ∧
    (rollBackVolumeCreate demoEnv demoCtx
      (storeVolume demoEnv demoCtx ⟨Store.empty, ["/bricks/b1"]⟩).2).2.fs = [] ∧
    Exists demoEnv (rollBackVolumeCreate demoEnv demoCtx
      (storeVolume demoEnv demoCtx ⟨Store.empty, ["/bricks/b1"]⟩).2).2.store demoVol.Name
      = true :=
  ⟨rfl, by decide, by decide, by decide, by decide⟩

/-- C3, amended: `rollBackVolumeCreate` does not touch the replicated store.  For every
store state and every `Volinfo` `v` in the context under `"volinfo"`, if `storeVolume`
succeeds and `rollBackVolumeCreate` is then run with the same context, the store is the
one `storeVolume` left, and it holds the entry at `volumePrefix + v.Name`:
`volume.Exists(v.Name)` is true. -/
theorem rollBackVolumeCreate_store_unchanged (env : Env) (c : TxnCtx) (w : World)
    (v : Volinfo) (hctx : c.GetVolinfo "volinfo" = .ok v)
    (hstore : (storeVolume env c w).1 = none) :
    (rollBackVolumeCreate env c (storeVolume env c w).2).2.store
      = (storeVolume env c w).2.store ∧
    Exists env (rollBackVolumeCreate env c (storeVolume env c w).2).2.store v.Name = true := by
  have hroll : (rollBackVolumeCreate env c (storeVolume env c w).2).2.store
      = (storeVolume env c w).2.store := by
    simp [rollBackVolumeCreate, hctx]
  refine ⟨hroll, ?_⟩
  rw [hroll]
  cases hm : env.jsonMarshal v with
  | error e =>
    simp [storeVolume, hctx, AddOrUpdateVolumeFunc, AddOrUpdateVolume, hm] at hstore
  | ok j =>
    cases hf : w.store.fault with
    | some e =>
      simp [storeVolume, hctx, AddOrUpdateVolumeFunc, AddOrUpdateVolume, hm, Store.Put, hf]
        at hstore
    | none =>
      simp [storeVolume, hctx, AddOrUpdateVolumeFunc, AddOrUpdateVolume, hm, Store.Put, hf,
        Exists, Store.Get, filter_put_same]

/-- C3, amended, evaluated on the empty store with `vol1` in the context. -/
theorem rollBackVolumeCreate_store_unchanged_witness :
    (rollBackVolumeCreate demoEnv demoCtx
      (storeVolume demoEnv demoCtx ⟨Store.empty, ["/bricks/b1"]⟩).2).2.store
      = (storeVolume demoEnv demoCtx ⟨Store.empty, ["/bricks/b1"]⟩).2.store :=
  (rollBackVolumeCreate_store_unchanged demoEnv demoCtx ⟨Store.empty, ["/bricks/b1"]⟩ demoVol
    rfl (by decide)).1

/-! ## Volume create: target nodes -/

theorem nodesForVolCreate.loop_spec (env : Env) (s : Store) (bricks : List String) :
    ∀ (acc nodes : List UUID), nodesForVolCreate.loop env s bricks acc = .ok nodes →
      ∃ added, nodes = acc ++ added ∧
        List.Forall₂ (fun b id => brickNode env s b = .ok id) bricks added := by
  induction bricks with
  | nil =>
    intro acc nodes h
    simp only [nodesForVolCreate.loop, Except.ok.injEq] at h
    exact ⟨[], by simp [h], List.Forall₂.nil⟩
  | cons b rest ih =>
    intro acc nodes h
    unfold nodesForVolCreate.loop at h
    cases hp : env.ParseHostAndBrickPath b with
    | error e => simp [hp] at h
    | ok hq =>
      obtain ⟨host, q⟩ := hq
      simp only [hp] at h
      by_cases hid : env.uuidParse host = []
      · simp only [hid, if_true] at h
        cases hg : env.GetPeerIDByAddrF s host with
        | error e => simp [hg] at h
        | ok id1 =>
          simp only [hg] at h
          obtain ⟨added, hn, hall⟩ := ih _ _ h
          refine ⟨id1 :: added, by simp [hn], List.Forall₂.cons ?_ hall⟩
          simp [brickNode, hp, hid, hg]
      · simp only [hid, if_false] at h
        obtain ⟨added, hn, hall⟩ := ih _ _ h
        refine ⟨env.uuidParse host :: added, by simp [hn], List.Forall₂.cons ?_ hall⟩
        simp [brickNode, hp, hid]

/-- C5, as stated, fails: for the request with two bricks on the peer `10.0.0.1`,
`nodesForVolCreate` succeeds and returns that peer twice, and `volumeCreateHandler`
passes this list as `SimpleTxn.Nodes`. -/
theorem nodesForVolCreate_repeats_node :
    nodesForVolCreate demoEnv Store.empty demoReq = .ok [demoPeerID, demoPeerID] ∧
    ¬ [demoPeerID, demoPeerID].Nodup ∧
    (volumeCreateHandler demoEnv demoEngine ⟨"r1", "u1", "p1"⟩ ⟨Store.empty, []⟩
        ⟨"create vol1"⟩).1.head? =
      some (.NewTxn ⟨[demoPeerID, demoPeerID], "vol1", "vol-create.Stage",
        "vol-create.Commit", "vol-create.Store", "vol-create.Rollback", "r1"⟩) :=
  ⟨rfl, by decide, by decide⟩

/-- C5, amended: for every request for which `nodesForVolCreate` succeeds, the returned
list has one entry per brick, in brick order, the entry being the node that brick
resolves to; a node hosting several bricks of the request is listed once per brick. -/
theorem nodesForVolCreate_one_per_brick (env : Env) (s : Store) (req : VolCreateRequest)
    (nodes : List UUID) (h : nodesForVolCreate env s req = .ok nodes) :
    nodes.length = req.Bricks.length ∧
    List.Forall₂ (fun b id => brickNode env s b = .ok id) req.Bricks nodes := by
  obtain ⟨added, hn, hall⟩ := nodesForVolCreate.loop_spec env s req.Bricks [] nodes h
  simp only [List.nil_append] at hn
  subst hn
  exact ⟨hall.length_eq.symm, hall⟩

/-- C5, amended, evaluated on the two-brick request. -/
theorem nodesForVolCreate_one_per_brick_witness :
    [demoPeerID, demoPeerID].length = demoReq.Bricks.length :=
  (nodesForVolCreate_one_per_brick demoEnv Store.empty demoReq [demoPeerID, demoPeerID] rfl).1

/-! ## Volume create: the handler on an existing volume -/

/-- C8: `volumeCreateHandler` never overwrites an existing volume.  For every request
that decodes to a non-empty name and a non-empty brick list, and every store state that
serves reads and holds an entry at `volumePrefix + req.Name`, the handler's only action
is `SendHTTPError(500, ErrVolExists)`: no transaction is constructed, no step function
runs, and the state is unchanged. -/
theorem volumeCreateHandler_existing_volume (env : Env) (eng : TxnEngine) (rnd : Fresh)
    (w : World) (r : HttpRequest) (req : VolCreateRequest)
    (hparse : env.GetJSONFromRequest r default = .ok req)
    (hname : req.Name ≠ "") (hbricks : req.Bricks ≠ [])
    (hserving : w.store.fault = none)
    (hentry : ∃ val, (volumePrefix env ++ req.Name, val) ∈ w.store.kvs) :
    volumeCreateHandler env eng rnd w r =
      ([.SendHTTPError 500 env.ErrVolExists.text], w) := by
  obtain ⟨val, hval⟩ := hentry
  have hlen := filter_key_length_one w.store.kvs w.store.nodup _ _ hval
  have hex : ExistsFunc env w.store req.Name = true := by
    simp [ExistsFunc, Exists, Store.Get, hserving, hlen]
  have hun : unmarshalVolCreateRequest env default r = ((0, none), req) := by
    have hpos : ¬ req.Bricks.length ≤ 0 := by
      have := List.length_pos.mpr hbricks
      omega
    simp [unmarshalVolCreateRequest, hparse, hname, hpos]
  simp [volumeCreateHandler, hun, hex]

/-- C8, evaluated: a create request for `vol1` against the store that holds `vol1`. -/
theorem volumeCreateHandler_existing_volume_witness :
    (volumeCreateHandler demoEnv demoEngine ⟨"r1", "u1", "p1"⟩ ⟨demoStore, ["/bricks/b1"]⟩
        ⟨"create vol1"⟩).1 = [.SendHTTPError 500 "volume already exists"] :=
  congrArg Prod.fst
    (volumeCreateHandler_existing_volume demoEnv demoEngine ⟨"r1", "u1", "p1"⟩
      ⟨demoStore, ["/bricks/b1"]⟩ ⟨"create vol1"⟩ demoReq rfl (by decide) (by decide) rfl
      ⟨demoVolJSON, by decide⟩)

end Glusterd2
